import Mathlib

/- Verification of the EasyCLI desktop controller (src/src-tauri/src/main.rs):
   the process supervisor (start/restart of the managed CLIProxyAPI binary),
   the OAuth callback relay (per-port HTTP listeners issuing 302 redirects),
   and the keep-alive monitor.  Rust functions are shallowly embedded as Lean
   functions; process-wide mutable statics become explicit state records, and
   OS effects (liveness probes, spawn results, random bytes, I/O failures)
   become an explicit environment record. -/

namespace EasyCLI

/-! ### String helpers

The Rust code uses `str::ends_with('/')`, `str::trim_start_matches('/')` and
`format!` concatenation.  We embed them over `String.data` lists. -/

/-- Embeds Rust `s.ends_with('/')`: the last character of `s` is `'/'`. -/
def endsWithSlash (s : String) : Bool :=
  s.data.getLast? == some '/'

/-- Embeds Rust `s.trim_start_matches('/')`: drop every leading `'/'`. -/
def trimLeadingSlashes (s : String) : String :=
  ⟨s.data.dropWhile (· == '/')⟩

/-- Remove one trailing `'/'` if present (used by the spec-side join). -/
def stripTrailingSlash (s : String) : String :=
  if endsWithSlash s then ⟨s.data.dropLast⟩ else s

/-! ### Redirect construction (main.rs lines 1458-1493) -/

/-- Embeds `callback_path_for` (main.rs 1458): fixed provider → path table. -/
def callback_path_for (provider : String) : String :=
  if provider = "anthropic" then "/anthropic/callback"
  else if provider = "codex" then "/codex/callback"
  else if provider = "google" then "/google/callback"
  else if provider = "iflow" then "/iflow/callback"
  else "/callback"

/-- Embeds the `base` computation of `build_redirect_url` (main.rs 1476-1487):
local mode targets `http://127.0.0.1:<local_port or 8317>`, remote mode joins
the base URL (defaulting to `http://127.0.0.1:8317`) and the callback path,
inserting a `'/'` only when the base does not already end with one. -/
def redirect_base (mode provider : String) (base_url : Option String)
    (local_port : Option Nat) : String :=
  if mode = "local" then
    "http://127.0.0.1:" ++ toString (local_port.getD 8317) ++ callback_path_for provider
  else
    if endsWithSlash (base_url.getD "http://127.0.0.1:8317") then
      base_url.getD "http://127.0.0.1:8317"
        ++ trimLeadingSlashes (callback_path_for provider)
    else
      base_url.getD "http://127.0.0.1:8317"
        ++ "/" ++ trimLeadingSlashes (callback_path_for provider)

/-- Embeds `build_redirect_url` (main.rs 1468): the base above, with
`?<query>` appended iff the query string is non-empty (main.rs 1488-1492). -/
def build_redirect_url (mode provider : String) (base_url : Option String)
    (local_port : Option Nat) (query : String) : String :=
  if query.isEmpty then redirect_base mode provider base_url local_port
  else redirect_base mode provider base_url local_port ++ "?" ++ query

/-! Reference definitions following the spec's words (for the refinement
claim C1): the callback path table of §6, a base/path join that leaves
exactly one slash between base and path whether or not the base ends with
`'/'`, and query pass-through. -/

/-- Reference definition from the spec's callback path table (§6). -/
def spec_callback_path (provider : String) : String :=
  if provider = "anthropic" then "/anthropic/callback"
  else if provider = "codex" then "/codex/callback"
  else if provider = "google" then "/google/callback"
  else if provider = "iflow" then "/iflow/callback"
  else "/callback"

/-- Reference definition from the spec: join the base URL and the callback
path (which starts with `'/'`) with exactly one slash between them, whether
or not the base ends with `'/'`. -/
def spec_join_single_slash (base cb : String) : String :=
  stripTrailingSlash base ++ cb

/-- Reference definition from the spec: `?<query>` is appended iff the query
string is non-empty. -/
def spec_with_query (base query : String) : String :=
  if query.isEmpty then base else base ++ "?" ++ query

/-- Reference definition from the spec: local-mode redirect target. -/
def spec_redirect_local (port : Nat) (provider query : String) : String :=
  spec_with_query ("http://127.0.0.1:" ++ toString port ++ spec_callback_path provider) query

/-- Reference definition from the spec: remote-mode redirect target. -/
def spec_redirect_remote (base provider query : String) : String :=
  spec_with_query (spec_join_single_slash base (spec_callback_path provider)) query

/-! ### Process supervisor (main.rs 904-913, 1079-1344)

The process-wide statics `PROCESS_PID`, `CLI_PROXY_PASSWORD` and the on-disk
`config.yaml` become a state record; OS effects (the liveness probe, the
filesystem, the RNG, the spawn outcome) become an environment record.  The
bodies of `start_cliproxyapi` (1104-1212) and `restart_cliproxyapi`
(1237-1343) are line-for-line identical after their respective entry checks,
so both are embedded through the shared `launch_core`. -/

/-- Character set of `generate_random_password` (main.rs 905). -/
def CHARSET : List Char :=
  "ABCDEFGHIJKLMNOPQRSTUVWXYZabcdefghijklmnopqrstuvwxyz0123456789".data

/-- Embeds `generate_random_password` (main.rs 904): 32 characters drawn from
`CHARSET`; the thread-local RNG is supplied as a stream `randIdx` of draws,
each reduced `% CHARSET.length`, embedding `rng.gen_range(0..CHARSET.len())`
whose result always lies below `CHARSET.len()`. -/
def generate_random_password (randIdx : Nat → Nat) : String :=
  ⟨(List.range 32).map fun i => CHARSET.getD (randIdx i % CHARSET.length) 'A'⟩

/-- The parsed `config.yaml` mapping, restricted to the fields the supervisor
reads or writes: `port` and `remote-management.secret-key`. -/
structure Config where
  port : Option Nat
  secretKey : Option String
  deriving DecidableEq

/-- Supervisor-visible mutable state: `PROCESS_PID`, `CLI_PROXY_PASSWORD`,
the on-disk config (`none` = file absent), plus a ghost counter of successful
spawns. -/
structure SupState where
  processPid : Option Nat
  cliProxyPassword : Option String
  configFile : Option Config
  spawns : Nat
  deriving DecidableEq

/-- Kind of termination request: `SIGTERM` is graceful, `taskkill /F` is a
forced kill. -/
inductive TermKind
  | graceful
  | forced
  deriving DecidableEq

/-- Ghost trace events emitted by the supervisor operations. -/
inductive Ev
  | termSignal (kind : TermKind) (pid : Nat)
  | sleepMs (ms : Nat)
  | reclaimPort (port : Nat)
  | spawned (pid : Nat)
  deriving DecidableEq

/-- Environment: outcomes of the OS interactions of one supervisor call.
`alive` is the liveness probe (signal-0 on Unix / tasklist on Windows);
`versionInfo` embeds `current_local_info()`; the error fields are the
possible failures of `fs::read_to_string`, `serde_yaml::from_str`,
`serde_yaml::to_string` and `fs::write`; `spawnResult` is the outcome of
`Command::spawn` (the new pid on success). -/
structure Env where
  alive : Nat → Bool
  versionInfo : Except String (Option (String × String))
  findExecutable : String → Option String
  readError : Option String
  parseError : Option String
  serializeError : Option String
  writeError : Option String
  randIdx : Nat → Nat
  spawnResult : Except String Nat

/-- Platform selector for the platform-conditional code paths. -/
inductive Platform
  | windows
  | unix
  deriving DecidableEq

/-- Kind of termination signal `restart_cliproxyapi` sends the old process
(main.rs 1220-1233): `taskkill /F /PID` on Windows, `SIGTERM` on Unix. -/
def restart_kill_kind : Platform → TermKind
  | .windows => .forced
  | .unix => .graceful

/-- Output of the shared launch sequence: the result (`Ok (version,
password)` on success), the new state, and the ghost event trace. -/
structure LaunchOut where
  result : Except String (String × String)
  state : SupState
  trace : List Ev

/-- Embeds the common body of `start_cliproxyapi` (main.rs 1104-1212) and
`restart_cliproxyapi` (main.rs 1237-1343): resolve version directory and
executable, require `config.yaml`, read and parse it, read the port (`as
u16` truncates), best-effort `kill_process_on_port` (failures only logged),
generate the password and store it in `CLI_PROXY_PASSWORD`, set
`remote-management.secret-key`, serialize and write the config, spawn the
detached process and store its pid.  Note the mutation order: the password
is stored before the config is written, and both happen before the spawn. -/
def launch_core (env : Env) (st : SupState) : LaunchOut :=
  match env.versionInfo with
  | .error e => ⟨.error e, st, []⟩
  | .ok none => ⟨.error "Version file does not exist", st, []⟩
  | .ok (some (ver, path)) =>
    match env.findExecutable path with
    | none => ⟨.error "Executable file does not exist", st, []⟩
    | some _exe =>
      match st.configFile with
      | none => ⟨.error "Configuration file does not exist", st, []⟩
      | some conf =>
        match env.readError with
        | some e => ⟨.error e, st, []⟩
        | none =>
          match env.parseError with
          | some e => ⟨.error e, st, []⟩
          | none =>
            match env.serializeError with
            | some e =>
              ⟨.error e,
               { st with cliProxyPassword := some (generate_random_password env.randIdx) },
               [.reclaimPort (conf.port.getD 8317 % 65536)]⟩
            | none =>
              match env.writeError with
              | some e =>
                ⟨.error e,
                 { st with cliProxyPassword := some (generate_random_password env.randIdx) },
                 [.reclaimPort (conf.port.getD 8317 % 65536)]⟩
              | none =>
                match env.spawnResult with
                | .error e =>
                  ⟨.error e,
                   { st with
                      cliProxyPassword := some (generate_random_password env.randIdx),
                      configFile := some
                        { conf with secretKey := some (generate_random_password env.randIdx) } },
                   [.reclaimPort (conf.port.getD 8317 % 65536)]⟩
                | .ok pid =>
                  ⟨.ok (ver, generate_random_password env.randIdx),
                   { st with
                      cliProxyPassword := some (generate_random_password env.randIdx),
                      configFile := some
                        { conf with secretKey := some (generate_random_password env.randIdx) },
                      processPid := some pid,
                      spawns := st.spawns + 1 },
                   [.reclaimPort (conf.port.getD 8317 % 65536), .spawned pid]⟩

/-- Result value of `start_cliproxyapi`: the `already running` short-circuit
or the started json carrying the fresh password. -/
inductive StartOk
  | alreadyRunning
  | started (password : String)
  deriving DecidableEq

deriving instance DecidableEq for Except

/-- Result and post-state of one `start_cliproxyapi` call. -/
structure StartOut where
  result : Except String StartOk
  state : SupState
  deriving DecidableEq

/-- The launch tail of `start_cliproxyapi`: wraps `launch_core`, returning
`{"success": true, "password": password}` on success. -/
def start_launch (env : Env) (st : SupState) : StartOut :=
  match (launch_core env st).result with
  | .error e => ⟨.error e, (launch_core env st).state⟩
  | .ok (_ver, pw) => ⟨.ok (.started pw), (launch_core env st).state⟩

/-- Embeds `start_cliproxyapi` (main.rs 1080): if a pid is stored and the
liveness probe reports it alive, return `{"success": true, "message":
"already running"}` without touching any state; otherwise run the launch
sequence. -/
def start_cliproxyapi (env : Env) (st : SupState) : StartOut :=
  match st.processPid with
  | some pid =>
    if env.alive pid then ⟨.ok .alreadyRunning, st⟩
    else start_launch env st
  | none => start_launch env st

/-- Result, post-state and ghost trace of one `restart_cliproxyapi` call. -/
structure RestartOut where
  result : Except String Unit
  state : SupState
  trace : List Ev

/-- The launch tail of `restart_cliproxyapi`: wraps `launch_core`, returning
`Ok(())` on success; `pre` is the trace of the preceding kill step. -/
def restart_launch (env : Env) (st : SupState) (pre : List Ev) : RestartOut :=
  match (launch_core env st).result with
  | .error e => ⟨.error e, (launch_core env st).state, pre ++ (launch_core env st).trace⟩
  | .ok _ => ⟨.ok (), (launch_core env st).state, pre ++ (launch_core env st).trace⟩

/-- Embeds `restart_cliproxyapi` (main.rs 1216): if a pid is stored, send it
a termination signal (`taskkill /F` on Windows, `SIGTERM` on Unix), sleep
500 ms, then run the launch sequence unconditionally (no `already running`
short-circuit). -/
def restart_cliproxyapi (plat : Platform) (env : Env) (st : SupState) : RestartOut :=
  match st.processPid with
  | some pid =>
    restart_launch env st [.termSignal (restart_kill_kind plat) pid, .sleepMs 500]
  | none => restart_launch env st []

/-- Iterated `start_cliproxyapi` over a sequence of environments (one per
call), keeping only the state. -/
def runStarts (envs : List Env) (st : SupState) : SupState :=
  envs.foldl (fun s e => (start_cliproxyapi e s).state) st

/-! ### Callback relay (main.rs 1495-1592)

`CALLBACK_SERVERS : HashMap<u16, (Arc<AtomicBool>, JoinHandle)>` becomes an
association list with the HashMap's remove/insert operations; each entry
additionally carries the worker's bind outcome and ghost flags recording the
unblocking self-connect and the thread join.  Entries taken out of the map
are kept in a ghost `removed` list so their flags stay observable. -/

/-- Parameters captured by one listener's worker closure (main.rs 1563). -/
structure RelayParams where
  provider : String
  mode : String
  base_url : Option String
  local_port : Option Nat
  deriving DecidableEq

/-- One callback-server entry: the `Arc<AtomicBool>` stop-flag value, whether
`TcpListener::bind` succeeded in the worker (main.rs 1504), and ghost fields
for the unblocking nudge and the thread join. -/
structure RelayEntry where
  port : Nat
  params : RelayParams
  stopFlag : Bool
  bound : Bool
  nudged : Bool
  joined : Bool
  deriving DecidableEq

/-- Relay registry state: the `CALLBACK_SERVERS` map plus the ghost list of
entries that have been taken out of the map. -/
structure RelayState where
  servers : List (Nat × RelayEntry)
  removed : List RelayEntry
  deriving DecidableEq

/-- Association-list lookup, embedding `HashMap::get`/key membership. -/
def lookupPort : List (Nat × RelayEntry) → Nat → Option RelayEntry
  | [], _ => none
  | (k, e) :: rest, p => if k = p then some e else lookupPort rest p

/-- Association-list removal, embedding `HashMap::remove`. -/
def removePort : List (Nat × RelayEntry) → Nat → List (Nat × RelayEntry)
  | [], _ => []
  | (k, e) :: rest, p => if k = p then removePort rest p else (k, e) :: removePort rest p

/-- Relay environment: whether `TcpListener::bind("127.0.0.1:port")` fails
(port in use or insufficient permission, main.rs 1504-1509). -/
structure RelayEnv where
  bindFails : Nat → Bool

/-- Json-shaped result of the relay commands: `{"success": bool}` with an
optional `"error"` field. -/
structure CbJson where
  success : Bool
  error : Option String
  deriving DecidableEq

/-- Result and post-state of a relay command. -/
structure CbOut where
  result : Except String CbJson
  state : RelayState
  deriving DecidableEq

/-- The entry created for a fresh listener: stop flag false; the worker binds
unless the environment makes the bind fail (in which case the worker only
logs and returns, leaving the entry in the map pointing at a dead thread). -/
def new_relay_entry (env : RelayEnv) (port : Nat) (params : RelayParams) : RelayEntry :=
  ⟨port, params, false, !env.bindFails port, false, false⟩

/-- Embeds `start_callback_server` (main.rs 1547): under the registry lock,
if an entry exists for the port, set its stop flag, nudge its accept loop
with a loopback connect and join the worker synchronously; then spawn the
new worker and insert the new entry.  Returns `{"success": true}`
unconditionally — the bind outcome inside the worker is never consulted. -/
def start_callback_server (env : RelayEnv) (st : RelayState) (port : Nat)
    (params : RelayParams) : CbOut :=
  match lookupPort st.servers port with
  | some e =>
    ⟨.ok ⟨true, none⟩,
     { servers := (port, new_relay_entry env port params) :: removePort st.servers port,
       removed := st.removed ++ [{ e with stopFlag := true, nudged := true, joined := true }] }⟩
  | none =>
    ⟨.ok ⟨true, none⟩,
     { servers := (port, new_relay_entry env port params) :: removePort st.servers port,
       removed := st.removed }⟩

/-- Embeds `stop_callback_server` (main.rs 1577): take the entry out of the
map; if none was present, return `{"success": false, "error": "not
running"}` (an `Ok`, not an `Err`); otherwise set the stop flag, nudge the
listener, and join the worker on a detached helper thread (so `joined` is
not set synchronously). -/
def stop_callback_server (st : RelayState) (port : Nat) : CbOut :=
  match lookupPort st.servers port with
  | none => ⟨.ok ⟨false, some "not running"⟩, st⟩
  | some e =>
    ⟨.ok ⟨true, none⟩,
     { servers := removePort st.servers port,
       removed := st.removed ++ [{ e with stopFlag := true, nudged := true }] }⟩

/-! ### Keep-alive monitor (main.rs 2051-2091)

`KEEP_ALIVE_HANDLE` and the read side of `CLI_PROXY_PASSWORD` become a state
record; loops whose handle was taken out of the slot are kept in a ghost
`stopped` list so their cancellation flags stay observable. -/

/-- One keep-alive loop: target port, captured password, and the value of its
`Arc<AtomicBool>` cancellation flag. -/
structure KAEntry where
  port : Nat
  password : String
  stopFlag : Bool
  deriving DecidableEq

/-- Keep-alive state: the singleton `KEEP_ALIVE_HANDLE` slot, the stored
`CLI_PROXY_PASSWORD`, and the ghost list of loops taken out of the slot. -/
structure KAState where
  slot : Option KAEntry
  password : Option String
  stopped : List KAEntry
  deriving DecidableEq

/-- Embeds `stop_keep_alive_internal` (main.rs 2081): take the handle out of
the slot; if one was there, set its cancellation flag (the join itself is
deferred to a detached thread). -/
def stop_keep_alive_internal (st : KAState) : KAState :=
  match st.slot with
  | none => st
  | some e => { st with slot := none, stopped := st.stopped ++ [{ e with stopFlag := true }] }

/-- Embeds `start_keep_alive` (main.rs 2051): first stop any existing
instance, then read the stored password (error if none), then install the
new loop with a fresh unset cancellation flag. -/
def start_keep_alive (port : Nat) (st : KAState) : Except String CbJson × KAState :=
  match (stop_keep_alive_internal st).password with
  | none => (.error "No CLIProxyAPI password available", stop_keep_alive_internal st)
  | some pw =>
    (.ok ⟨true, none⟩,
     { stop_keep_alive_internal st with slot := some ⟨port, pw, false⟩ })

/-- Loops whose cancellation flag is not set, among the slot and the ghost
list of taken-out loops. -/
def activeLoops (st : KAState) : List KAEntry :=
  (st.slot.toList ++ st.stopped).filter fun e => !e.stopFlag

/-! ### Concrete instances used by witnesses and counterexamples -/

/-- An environment in which every OS interaction succeeds: every pid probes
alive, version 6.0.0 is installed, all I/O succeeds, every RNG draw is 0
(so the generated password is 32 `'A'`s), and spawning yields pid 77. -/
def env0 : Env :=
  { alive := fun _ => true
    versionInfo := .ok (some ("6.0.0", "/v"))
    findExecutable := fun _ => some "/v/cli-proxy-api"
    readError := none
    parseError := none
    serializeError := none
    writeError := none
    randIdx := fun _ => 0
    spawnResult := .ok 77 }

/-- Like `env0` but the stored pid probes dead and the spawn fails. -/
def envSpawnFail : Env :=
  { env0 with alive := fun _ => false, spawnResult := .error "spawn failed" }

/-- Supervisor state with pid 42 stored and old credentials in place. -/
def st0 : SupState :=
  { processPid := some 42
    cliProxyPassword := some "OLD"
    configFile := some { port := some 8317, secretKey := some "OLD" }
    spawns := 0 }

/-- Supervisor state with no stored pid. -/
def stNoPid : SupState :=
  { st0 with processPid := none }

/-- Relay environment in which every bind succeeds. -/
def relayEnvOk : RelayEnv := { bindFails := fun _ => false }

/-- Relay environment in which every bind fails (port in use). -/
def relayEnvFail : RelayEnv := { bindFails := fun _ => true }

/-- Empty relay registry. -/
def relaySt0 : RelayState := { servers := [], removed := [] }

/-- Sample relay parameters. -/
def rp0 : RelayParams :=
  { provider := "google", mode := "local", base_url := none, local_port := some 8317 }

/-- Sample relay parameters, different from `rp0`. -/
def rp1 : RelayParams :=
  { provider := "codex", mode := "remote"
    base_url := some "https://example.com/api/", local_port := none }

/-- Keep-alive state with a password stored and one loop running. -/
def kaSt0 : KAState :=
  { slot := some ⟨8317, "OLD", false⟩, password := some "PW", stopped := [] }

/-! ### String lemmas -/

theorem str_ext {a b : String} (h : a.data = b.data) : a = b := by
  cases a; cases b; exact congrArg String.mk h

theorem dropLast_append_slash {l : List Char} (h : l.getLast? = some '/') :
    l.dropLast ++ ['/'] = l := by
  have hne : l ≠ [] := by
    intro he; subst he; simp at h
  have hlast : l.getLast hne = '/' := by
    have hq := List.getLast?_eq_getLast l hne
    rw [hq] at h; exact Option.some.inj h
  rw [← hlast]; exact List.dropLast_append_getLast hne

theorem spec_callback_path_eq (provider : String) :
    spec_callback_path provider = callback_path_for provider := rfl

theorem callback_path_split (provider : String) :
    callback_path_for provider
      = "/" ++ trimLeadingSlashes (callback_path_for provider) := by
  unfold callback_path_for
  split
  · decide
  split
  · decide
  split
  · decide
  split
  · decide
  decide

theorem remote_join (bu rest : String) :
    (if endsWithSlash bu then bu ++ rest else bu ++ "/" ++ rest)
      = stripTrailingSlash bu ++ ("/" ++ rest) := by
  by_cases h : endsWithSlash bu = true
  · rw [if_pos h]
    unfold stripTrailingSlash
    rw [if_pos h]
    apply str_ext
    have hl : bu.data.getLast? = some '/' := by
      unfold endsWithSlash at h
      exact eq_of_beq h
    simp only [String.data_append]
    conv_lhs => rw [← dropLast_append_slash hl]
    simp
  · rw [if_neg h]
    unfold stripTrailingSlash
    rw [if_neg h]
    apply str_ext
    simp [String.data_append]

/-! ### C1 and C10: redirect construction -/

/-- C1: the redirect URL built by the callback relay refines the spec: in
local mode the target is `http://127.0.0.1:<local_port>` joined with the
provider's callback path from the spec table; in remote mode the base URL and
the callback path are joined with exactly one slash between them whether or
not the base ends with `'/'`; and `?<query>` is appended iff the query is
non-empty. -/
theorem build_redirect_url_refines_spec (provider query : String) :
    (∀ (port : Nat) (bu : Option String),
        build_redirect_url "local" provider bu (some port) query
          = spec_redirect_local port provider query)
    ∧ (∀ (mode bu : String) (lp : Option Nat), mode ≠ "local" →
        build_redirect_url mode provider (some bu) lp query
          = spec_redirect_remote bu provider query) := by
  constructor
  · intro port bu
    rfl
  · intro mode bu lp hmode
    have hbase : redirect_base mode provider (some bu) lp
        = spec_join_single_slash bu (spec_callback_path provider) := by
      unfold redirect_base
      rw [if_neg hmode]
      simp only [Option.getD_some]
      rw [remote_join bu (trimLeadingSlashes (callback_path_for provider)),
        ← callback_path_split]
      rfl
    unfold build_redirect_url spec_redirect_remote spec_with_query
    rw [hbase]

/-- Witness for C1 at the spec's own examples. -/
theorem build_redirect_url_refines_spec_witness :
    build_redirect_url "local" "google" none (some 8317) "code=abc&state=1"
        = spec_redirect_local 8317 "google" "code=abc&state=1"
    ∧ build_redirect_url "remote" "codex" (some "https://example.com/api/") none ""
        = spec_redirect_remote "https://example.com/api/" "codex" ""
    ∧ spec_redirect_local 8317 "google" "code=abc&state=1"
        = "http://127.0.0.1:8317/google/callback?code=abc&state=1"
    ∧ spec_redirect_remote "https://example.com/api/" "codex" ""
        = "https://example.com/api/codex/callback" :=
  ⟨(build_redirect_url_refines_spec "google" "code=abc&state=1").1 8317 none,
   (build_redirect_url_refines_spec "codex" "").2 "remote" "https://example.com/api/" none
     (by decide),
   by decide, by decide⟩

/-- C10: with no base URL in remote mode, `build_redirect_url` silently falls
back to the base `http://127.0.0.1:8317` (so the result is that base joined
with the provider's callback path, query appended); in local mode a missing
local port defaults to 8317. -/
theorem build_redirect_url_defaults (provider query : String) :
    (∀ (mode : String) (lp : Option Nat), mode ≠ "local" →
        build_redirect_url mode provider none lp query
          = spec_with_query ("http://127.0.0.1:8317" ++ callback_path_for provider) query)
    ∧ (∀ bu : Option String,
        build_redirect_url "local" provider bu none query
          = spec_with_query ("http://127.0.0.1:8317" ++ callback_path_for provider) query) := by
  constructor
  · intro mode lp hmode
    have hbase : redirect_base mode provider none lp
        = "http://127.0.0.1:8317" ++ callback_path_for provider := by
      unfold redirect_base
      rw [if_neg hmode]
      simp only [Option.getD_none]
      rw [remote_join "http://127.0.0.1:8317"
          (trimLeadingSlashes (callback_path_for provider)), ← callback_path_split]
      have hs : stripTrailingSlash "http://127.0.0.1:8317" = "http://127.0.0.1:8317" := by
        decide
      rw [hs]
    unfold build_redirect_url spec_with_query
    rw [hbase]
  · intro bu
    have hp : "http://127.0.0.1:" ++ toString ((none : Option Nat).getD 8317)
        = "http://127.0.0.1:8317" := by decide
    have hbase : redirect_base "local" provider bu none
        = "http://127.0.0.1:8317" ++ callback_path_for provider := by
      unfold redirect_base
      rw [if_pos rfl, hp]
    unfold build_redirect_url spec_with_query
    rw [hbase]

/-- Witness for C10: concrete defaults. -/
theorem build_redirect_url_defaults_witness :
    build_redirect_url "remote" "google" none none "x=1"
        = spec_with_query ("http://127.0.0.1:8317" ++ callback_path_for "google") "x=1"
    ∧ build_redirect_url "local" "iflow" none none ""
        = spec_with_query ("http://127.0.0.1:8317" ++ callback_path_for "iflow") ""
    ∧ spec_with_query ("http://127.0.0.1:8317" ++ callback_path_for "google") "x=1"
        = "http://127.0.0.1:8317/google/callback?x=1" :=
  ⟨(build_redirect_url_defaults "google" "x=1").1 "remote" none (by decide),
   (build_redirect_url_defaults "iflow" "").2 none,
   by decide⟩

/-! ### Supervisor lemmas -/

/-- Full case analysis of the launch sequence: either it fails, leaving the
state one of three shapes — untouched (failures up to parsing), with only the
fresh password stored (serialize/write failures), or with the fresh password
stored and the config rewritten (spawn failure) — or it succeeds, storing
the fresh password, the rewritten config, the new pid, and counting one
spawn. -/
theorem launch_core_spec (env : Env) (st : SupState) :
    (∃ e, (launch_core env st).result = Except.error e
       ∧ ((launch_core env st).state = st
          ∨ (launch_core env st).state
              = { st with cliProxyPassword := some (generate_random_password env.randIdx) }
          ∨ ∃ conf, st.configFile = some conf
              ∧ (launch_core env st).state
                = { st with
                    cliProxyPassword := some (generate_random_password env.randIdx),
                    configFile := some
                      { conf with secretKey := some (generate_random_password env.randIdx) } }))
    ∨ (∃ ver pid conf, st.configFile = some conf
        ∧ env.spawnResult = Except.ok pid
        ∧ (launch_core env st).result
            = Except.ok (ver, generate_random_password env.randIdx)
        ∧ (launch_core env st).state
            = { st with
                cliProxyPassword := some (generate_random_password env.randIdx),
                configFile := some
                  { conf with secretKey := some (generate_random_password env.randIdx) },
                processPid := some pid,
                spawns := st.spawns + 1 }) := by
  unfold launch_core
  split
  · exact Or.inl ⟨_, rfl, Or.inl rfl⟩
  · exact Or.inl ⟨_, rfl, Or.inl rfl⟩
  · split
    · exact Or.inl ⟨_, rfl, Or.inl rfl⟩
    · rename_i hconf0
      split
      · exact Or.inl ⟨_, rfl, Or.inl rfl⟩
      · rename_i conf hconf
        split
        · exact Or.inl ⟨_, rfl, Or.inl rfl⟩
        · split
          · exact Or.inl ⟨_, rfl, Or.inl rfl⟩
          · split
            · exact Or.inl ⟨_, rfl, Or.inr (Or.inl rfl)⟩
            · split
              · exact Or.inl ⟨_, rfl, Or.inr (Or.inl rfl)⟩
              · split
                · exact Or.inl ⟨_, rfl, Or.inr (Or.inr ⟨conf, hconf, rfl⟩)⟩
                · rename_i pid hpid
                  exact Or.inr ⟨_, pid, conf, hconf, hpid, rfl, rfl⟩

theorem start_launch_state (env : Env) (st : SupState) :
    (start_launch env st).state = (launch_core env st).state := by
  unfold start_launch
  split <;> rfl

theorem start_alive_eq (env : Env) (st : SupState) (pid : Nat)
    (h : st.processPid = some pid) (ha : env.alive pid = true) :
    start_cliproxyapi env st = ⟨Except.ok StartOk.alreadyRunning, st⟩ := by
  unfold start_cliproxyapi
  rw [h]
  simp [ha]

theorem start_launch_cases (env : Env) (st : SupState) :
    ((start_launch env st).state.processPid = st.processPid
      ∧ (start_launch env st).state.spawns = st.spawns)
    ∨ (∃ pid, (start_launch env st).state.processPid = some pid
        ∧ (start_launch env st).state.spawns = st.spawns + 1) := by
  rw [start_launch_state]
  rcases launch_core_spec env st with ⟨e, _, hst⟩ | ⟨ver, pid, conf, _, _, _, hst⟩
  · left
    rcases hst with h | h | ⟨conf, _, h⟩ <;> rw [h] <;> exact ⟨rfl, rfl⟩
  · right
    rw [hst]
    exact ⟨pid, rfl, rfl⟩

theorem start_step_alive (env : Env) (st : SupState)
    (hall : ∀ p, env.alive p = true) :
    (st.processPid ≠ none → (start_cliproxyapi env st).state = st)
    ∧ (st.processPid = none →
        ((start_cliproxyapi env st).state.processPid = none
          ∧ (start_cliproxyapi env st).state.spawns = st.spawns)
        ∨ ∃ pid, (start_cliproxyapi env st).state.processPid = some pid
            ∧ (start_cliproxyapi env st).state.spawns = st.spawns + 1) := by
  constructor
  · intro hne
    rcases ho : st.processPid with _ | pid
    · exact absurd ho hne
    · rw [start_alive_eq env st pid ho (hall pid)]
  · intro hnone
    have hsl : start_cliproxyapi env st = start_launch env st := by
      unfold start_cliproxyapi; rw [hnone]
    rw [hsl]
    rcases start_launch_cases env st with ⟨h1, h2⟩ | ⟨pid, h1, h2⟩
    · exact Or.inl ⟨hnone ▸ h1, h2⟩
    · exact Or.inr ⟨pid, h1, h2⟩

theorem runStarts_frozen (envs : List Env) :
    ∀ st : SupState, (∀ env ∈ envs, ∀ p, env.alive p = true) →
      st.processPid ≠ none → runStarts envs st = st := by
  induction envs with
  | nil => intro st _ _; rfl
  | cons e rest ih =>
    intro st hall hne
    have hstep := (start_step_alive e st (hall e (by simp))).1 hne
    show runStarts rest (start_cliproxyapi e st).state = st
    rw [hstep]
    exact ih st (fun env hm p => hall env (by simp [hm]) p) hne

theorem runStarts_spawns_le (envs : List Env) :
    ∀ st : SupState, (∀ env ∈ envs, ∀ p, env.alive p = true) →
      st.spawns = 0 → (runStarts envs st).spawns ≤ 1 := by
  induction envs with
  | nil =>
    intro st _ h0
    show st.spawns ≤ 1
    omega
  | cons e rest ih =>
    intro st hall h0
    have hall_e : ∀ p, e.alive p = true := hall e (by simp)
    have hall_rest : ∀ env ∈ rest, ∀ p, env.alive p = true :=
      fun env hm p => hall env (by simp [hm]) p
    show (runStarts rest (start_cliproxyapi e st).state).spawns ≤ 1
    rcases ho : st.processPid with _ | pid
    · rcases (start_step_alive e st hall_e).2 ho with ⟨_, h2⟩ | ⟨pid, h1, h2⟩
      · exact ih _ hall_rest (by rw [h2, h0])
      · rw [runStarts_frozen rest _ hall_rest (by rw [h1]; simp)]
        omega
    · have hfr := (start_step_alive e st hall_e).1 (by rw [ho]; simp)
      rw [hfr]
      exact ih st hall_rest h0

/-! ### C2: start idempotence while the managed process is alive -/

/-- C2: while a pid is stored and the OS liveness probe reports it alive,
`start_cliproxyapi` returns success with "already running" and leaves the
entire state — pid, credential, on-disk config, spawn count — untouched; and
over any sequence of start calls during which every probe reports the stored
pid alive, at most one process is ever spawned. -/
theorem start_idempotent_while_alive :
    (∀ (env : Env) (st : SupState) (pid : Nat),
        st.processPid = some pid → env.alive pid = true →
        start_cliproxyapi env st = ⟨Except.ok StartOk.alreadyRunning, st⟩)
    ∧ (∀ (envs : List Env) (st : SupState),
        (∀ env ∈ envs, ∀ p, env.alive p = true) → st.spawns = 0 →
        (runStarts envs st).spawns ≤ 1) :=
  ⟨fun env st pid h ha => start_alive_eq env st pid h ha,
   fun envs st hall h0 => runStarts_spawns_le envs st hall h0⟩

/-- Witness for C2: a stored live pid short-circuits, and two consecutive
starts from an empty slot spawn at most once. -/
theorem start_idempotent_while_alive_witness :
    start_cliproxyapi env0 st0 = ⟨Except.ok StartOk.alreadyRunning, st0⟩
    ∧ (runStarts [env0, env0] stNoPid).spawns ≤ 1 :=
  ⟨start_idempotent_while_alive.1 env0 st0 42 (by decide) (by decide),
   start_idempotent_while_alive.2 [env0, env0] stNoPid
     (by intro env hm p; simp at hm; subst hm; rfl)
     (by decide)⟩

theorem generate_random_password_spec (r : Nat → Nat) :
    (generate_random_password r).data.length = 32
    ∧ ∀ c ∈ (generate_random_password r).data, c ∈ CHARSET := by
  constructor
  · simp [generate_random_password]
  · intro c hc
    simp only [generate_random_password, List.mem_map, List.mem_range] at hc
    obtain ⟨i, _, rfl⟩ := hc
    have hlt : r i % CHARSET.length < CHARSET.length := by
      apply Nat.mod_lt
      decide
    rw [List.getD_eq_getElem CHARSET 'A' hlt]
    exact List.getElem_mem hlt

theorem start_launch_success (env : Env) (st : SupState) (pw : String)
    (h : (start_launch env st).result = Except.ok (StartOk.started pw)) :
    pw = generate_random_password env.randIdx
    ∧ (start_launch env st).state.cliProxyPassword = some pw
    ∧ ∃ conf, (start_launch env st).state.configFile = some conf
        ∧ conf.secretKey = some pw := by
  rcases launch_core_spec env st with ⟨e, hres, _⟩ | ⟨ver, pid, conf, _, _, hres, hst⟩
  · exfalso
    have hx : (start_launch env st).result = Except.error e := by
      unfold start_launch; rw [hres]
    rw [hx] at h
    cases h
  · have hsl : (start_launch env st).result
        = Except.ok (StartOk.started (generate_random_password env.randIdx)) := by
      unfold start_launch; rw [hres]
    rw [hsl] at h
    have hpw : pw = generate_random_password env.randIdx := by
      cases h; rfl
    subst hpw
    refine ⟨rfl, ?_, ?_⟩
    · rw [start_launch_state, hst]
    · rw [start_launch_state, hst]
      exact ⟨_, rfl, rfl⟩

theorem start_success_fresh (env : Env) (st : SupState) (pw : String)
    (h : (start_cliproxyapi env st).result = Except.ok (StartOk.started pw)) :
    pw = generate_random_password env.randIdx
    ∧ (start_cliproxyapi env st).state.cliProxyPassword = some pw
    ∧ ∃ conf, (start_cliproxyapi env st).state.configFile = some conf
        ∧ conf.secretKey = some pw := by
  rcases ho : st.processPid with _ | pid
  · have he : start_cliproxyapi env st = start_launch env st := by
      unfold start_cliproxyapi; rw [ho]
    rw [he] at h ⊢
    exact start_launch_success env st pw h
  · by_cases ha : env.alive pid = true
    · exfalso
      rw [start_alive_eq env st pid ho ha] at h
      cases h
    · have he : start_cliproxyapi env st = start_launch env st := by
        unfold start_cliproxyapi
        rw [ho]
        simp [ha]
      rw [he] at h ⊢
      exact start_launch_success env st pw h

theorem restart_launch_state (env : Env) (st : SupState) (pre : List Ev) :
    (restart_launch env st pre).state = (launch_core env st).state := by
  unfold restart_launch
  split <;> rfl

theorem restart_launch_trace (env : Env) (st : SupState) (pre : List Ev) :
    (restart_launch env st pre).trace = pre ++ (launch_core env st).trace := by
  unfold restart_launch
  split <;> rfl

theorem restart_launch_result_ok (env : Env) (st : SupState) (pre : List Ev)
    (h : (restart_launch env st pre).result = Except.ok ()) :
    ∃ v, (launch_core env st).result = Except.ok v := by
  unfold restart_launch at h
  rcases hres : (launch_core env st).result with e | v
  · rw [hres] at h; cases h
  · exact ⟨v, rfl⟩

theorem restart_eq_launch (plat : Platform) (env : Env) (st : SupState) :
    ∃ pre, restart_cliproxyapi plat env st = restart_launch env st pre := by
  unfold restart_cliproxyapi
  rcases st.processPid with _ | pid
  · exact ⟨[], rfl⟩
  · exact ⟨_, rfl⟩

theorem restart_state_eq (plat : Platform) (env : Env) (st : SupState) :
    (restart_cliproxyapi plat env st).state = (launch_core env st).state := by
  obtain ⟨pre, he⟩ := restart_eq_launch plat env st
  rw [he, restart_launch_state]

theorem restart_result_ok (plat : Platform) (env : Env) (st : SupState)
    (h : (restart_cliproxyapi plat env st).result = Except.ok ()) :
    ∃ v, (launch_core env st).result = Except.ok v := by
  obtain ⟨pre, he⟩ := restart_eq_launch plat env st
  rw [he] at h
  exact restart_launch_result_ok env st pre h

/-! ### C4: fresh 32-character credential on every successful (re)start -/

/-- C4: every successful start returns a password that is exactly the string
freshly generated from this call's RNG draws (so it cannot be a reuse of any
previously stored credential), 32 characters long, all drawn from the
62-character alphabet; it is stored as the new credential and written into
the config's remote-management secret-key.  Every successful restart does the
same with its own fresh draws. -/
theorem fresh_credential_per_start (env : Env) (st : SupState) :
    (∀ pw, (start_cliproxyapi env st).result = Except.ok (StartOk.started pw) →
        pw = generate_random_password env.randIdx
        ∧ pw.data.length = 32
        ∧ (∀ c ∈ pw.data, c ∈ CHARSET)
        ∧ (start_cliproxyapi env st).state.cliProxyPassword = some pw
        ∧ ∃ conf, (start_cliproxyapi env st).state.configFile = some conf
            ∧ conf.secretKey = some pw)
    ∧ (∀ plat, (restart_cliproxyapi plat env st).result = Except.ok () →
        (restart_cliproxyapi plat env st).state.cliProxyPassword
            = some (generate_random_password env.randIdx)
        ∧ (generate_random_password env.randIdx).data.length = 32
        ∧ (∀ c ∈ (generate_random_password env.randIdx).data, c ∈ CHARSET)
        ∧ ∃ conf, (restart_cliproxyapi plat env st).state.configFile = some conf
            ∧ conf.secretKey = some (generate_random_password env.randIdx)) := by
  constructor
  · intro pw h
    obtain ⟨hpw, hstore, hconf⟩ := start_success_fresh env st pw h
    subst hpw
    exact ⟨rfl, (generate_random_password_spec env.randIdx).1,
      (generate_random_password_spec env.randIdx).2, hstore, hconf⟩
  · intro plat h
    obtain ⟨v, hres⟩ := restart_result_ok plat env st h
    rcases launch_core_spec env st with ⟨e, hres', _⟩ | ⟨ver, pid, conf, _, _, hres', hst⟩
    · rw [hres'] at hres; cases hres
    · rw [restart_state_eq, hst]
      exact ⟨rfl, (generate_random_password_spec env.randIdx).1,
        (generate_random_password_spec env.randIdx).2, _, rfl, rfl⟩

/-- Witness for C4: with every RNG draw 0 the fresh credential is 32 `'A'`s;
it is returned, stored, and written into the config secret-key. -/
theorem fresh_credential_per_start_witness :
    "AAAAAAAAAAAAAAAAAAAAAAAAAAAAAAAA" = generate_random_password env0.randIdx
    ∧ ("AAAAAAAAAAAAAAAAAAAAAAAAAAAAAAAA" : String).data.length = 32
    ∧ (start_cliproxyapi env0 stNoPid).state.cliProxyPassword
        = some "AAAAAAAAAAAAAAAAAAAAAAAAAAAAAAAA"
    ∧ (restart_cliproxyapi Platform.unix env0 st0).state.cliProxyPassword
        = some (generate_random_password env0.randIdx) := by
  have h1 := (fresh_credential_per_start env0 stNoPid).1
    "AAAAAAAAAAAAAAAAAAAAAAAAAAAAAAAA" (by decide)
  have h2 := (fresh_credential_per_start env0 st0).2 Platform.unix (by decide)
  exact ⟨h1.1, h1.2.1, h1.2.2.2.1, h2.1⟩

theorem launch_core_error_state (env : Env) (st : SupState) (e : String)
    (h : (launch_core env st).result = Except.error e) :
    (launch_core env st).state.processPid = st.processPid
    ∧ (launch_core env st).state.spawns = st.spawns
    ∧ ((launch_core env st).state.cliProxyPassword = st.cliProxyPassword
        ∨ (launch_core env st).state.cliProxyPassword
            = some (generate_random_password env.randIdx))
    ∧ ((launch_core env st).state.configFile = st.configFile
        ∨ ∃ conf, st.configFile = some conf
            ∧ (launch_core env st).state.configFile
                = some { conf with
                    secretKey := some (generate_random_password env.randIdx) }) := by
  rcases launch_core_spec env st with ⟨e', _, hst⟩ | ⟨ver, pid, conf, _, _, hres, _⟩
  · rcases hst with hx | hx | ⟨conf, hc, hx⟩
    · rw [hx]; exact ⟨rfl, rfl, Or.inl rfl, Or.inl rfl⟩
    · rw [hx]; exact ⟨rfl, rfl, Or.inr rfl, Or.inl rfl⟩
    · rw [hx]; exact ⟨rfl, rfl, Or.inr rfl, Or.inr ⟨conf, hc, rfl⟩⟩
  · rw [hres] at h; cases h

theorem start_launch_result_error (env : Env) (st : SupState) (e : String)
    (h : (start_launch env st).result = Except.error e) :
    (launch_core env st).result = Except.error e := by
  unfold start_launch at h
  split at h
  · rename_i e' heq
    rw [heq]
    exact congrArg Except.error (Except.error.inj h)
  · simp at h

theorem restart_launch_result_error (env : Env) (st : SupState) (pre : List Ev) (e : String)
    (h : (restart_launch env st pre).result = Except.error e) :
    (launch_core env st).result = Except.error e := by
  unfold restart_launch at h
  split at h
  · rename_i e' heq
    rw [heq]
    exact congrArg Except.error (Except.error.inj h)
  · simp at h

theorem start_eq_launch_of_none (env : Env) (st : SupState)
    (h : st.processPid = none) :
    start_cliproxyapi env st = start_launch env st := by
  unfold start_cliproxyapi
  rw [h]

theorem start_eq_launch_not_alive (env : Env) (st : SupState) (pid : Nat)
    (h : st.processPid = some pid) (ha : ¬env.alive pid = true) :
    start_cliproxyapi env st = start_launch env st := by
  unfold start_cliproxyapi
  rw [h]
  simp [ha]

/-! ### C9: failure semantics of start/restart (corrected)

The code stores the fresh password (main.rs 1130) and rewrites the config
(main.rs 1159) before spawning (main.rs 1192), so serialize/write/spawn
failures leave the new credential — and, for spawn failures, the new on-disk
secret-key — in place.  Only the stored pid and the spawn count are preserved
by every failure. -/

/-- C9 counterexample: a spawn failure aborts the operation with an error but
has already replaced the stored credential and rewritten the on-disk config,
so start/restart are not atomic on failure as claimed (the stored pid,
however, is untouched). -/
theorem start_spawn_failure_mutates_state :
    (start_cliproxyapi envSpawnFail st0).result = Except.error "spawn failed"
    ∧ (start_cliproxyapi envSpawnFail st0).state.processPid = st0.processPid
    ∧ (start_cliproxyapi envSpawnFail st0).state.cliProxyPassword ≠ st0.cliProxyPassword
    ∧ (start_cliproxyapi envSpawnFail st0).state.configFile ≠ st0.configFile := by
  decide

/-- C9 amended: every failure of start or restart aborts with an error and
leaves the stored process id and the spawn count unchanged (in particular a
start failure never clears or replaces an existing "already running"
handle); the stored credential is either unchanged (failures up to config
parsing) or already replaced by the freshly generated one; the on-disk
config is either unchanged or already rewritten with the fresh secret-key. -/
theorem failure_keeps_pid_credential_dichotomy (env : Env) (st : SupState) :
    (∀ e, (start_cliproxyapi env st).result = Except.error e →
        (start_cliproxyapi env st).state.processPid = st.processPid
        ∧ (start_cliproxyapi env st).state.spawns = st.spawns
        ∧ ((start_cliproxyapi env st).state.cliProxyPassword = st.cliProxyPassword
            ∨ (start_cliproxyapi env st).state.cliProxyPassword
                = some (generate_random_password env.randIdx))
        ∧ ((start_cliproxyapi env st).state.configFile = st.configFile
            ∨ ∃ conf, st.configFile = some conf
                ∧ (start_cliproxyapi env st).state.configFile
                    = some { conf with
                        secretKey := some (generate_random_password env.randIdx) }))
    ∧ (∀ (plat : Platform) e, (restart_cliproxyapi plat env st).result = Except.error e →
        (restart_cliproxyapi plat env st).state.processPid = st.processPid
        ∧ (restart_cliproxyapi plat env st).state.spawns = st.spawns
        ∧ ((restart_cliproxyapi plat env st).state.cliProxyPassword = st.cliProxyPassword
            ∨ (restart_cliproxyapi plat env st).state.cliProxyPassword
                = some (generate_random_password env.randIdx))
        ∧ ((restart_cliproxyapi plat env st).state.configFile = st.configFile
            ∨ ∃ conf, st.configFile = some conf
                ∧ (restart_cliproxyapi plat env st).state.configFile
                    = some { conf with
                        secretKey := some (generate_random_password env.randIdx) })) := by
  constructor
  · intro e h
    by_cases hnone : st.processPid = none
    · rw [start_eq_launch_of_none env st hnone] at h ⊢
      rw [start_launch_state]
      exact launch_core_error_state env st e (start_launch_result_error env st e h)
    · obtain ⟨pid, ho⟩ := Option.ne_none_iff_exists'.mp hnone
      by_cases ha : env.alive pid = true
      · rw [start_alive_eq env st pid ho ha] at h; cases h
      · rw [start_eq_launch_not_alive env st pid ho ha] at h ⊢
        rw [start_launch_state]
        exact launch_core_error_state env st e (start_launch_result_error env st e h)
  · intro plat e h
    obtain ⟨pre, he⟩ := restart_eq_launch plat env st
    rw [he] at h ⊢
    rw [restart_launch_state]
    exact launch_core_error_state env st e (restart_launch_result_error env st pre e h)

/-- Witness for C9's amended theorem at the concrete spawn failure. -/
theorem failure_keeps_pid_witness :
    (start_cliproxyapi envSpawnFail st0).state.processPid = st0.processPid
    ∧ ((start_cliproxyapi envSpawnFail st0).state.cliProxyPassword
          = st0.cliProxyPassword
        ∨ (start_cliproxyapi envSpawnFail st0).state.cliProxyPassword
          = some (generate_random_password envSpawnFail.randIdx)) := by
  have h := (failure_keeps_pid_credential_dichotomy envSpawnFail st0).1
    "spawn failed" (by decide)
  exact ⟨h.1, h.2.2.1⟩

/-! ### C3: restart's termination signal and grace period (corrected)

On Unix the old process receives `SIGTERM` (graceful) followed by a 500 ms
sleep before the port reclaim and spawn; on Windows the code runs
`taskkill /F /PID` — a forced kill, not a graceful termination — so the
claim's "on every supported platform" fails. -/

theorem launch_core_trace_shape (env : Env) (st : SupState) :
    (launch_core env st).trace = []
    ∨ (∃ port, (launch_core env st).trace = [Ev.reclaimPort port])
    ∨ (∃ port p, (launch_core env st).trace = [Ev.reclaimPort port, Ev.spawned p]) := by
  unfold launch_core
  split
  · exact Or.inl rfl
  · exact Or.inl rfl
  · split
    · exact Or.inl rfl
    · split
      · exact Or.inl rfl
      · split
        · exact Or.inl rfl
        · split
          · exact Or.inl rfl
          · split
            · exact Or.inr (Or.inl ⟨_, rfl⟩)
            · split
              · exact Or.inr (Or.inl ⟨_, rfl⟩)
              · split
                · exact Or.inr (Or.inl ⟨_, rfl⟩)
                · exact Or.inr (Or.inr ⟨_, _, rfl⟩)

/-- C3 counterexample: on Windows, with pid 42 stored, the whole restart
trace contains a forced kill (`taskkill /F`) and no graceful signal at all —
refuting "sends a graceful termination signal … on every supported
platform". -/
theorem restart_windows_forced_kill :
    (restart_cliproxyapi Platform.windows env0 st0).trace
        = [Ev.termSignal TermKind.forced 42, Ev.sleepMs 500,
           Ev.reclaimPort 8317, Ev.spawned 77]
    ∧ TermKind.forced ≠ TermKind.graceful := by
  decide

/-- C3 amended: when a pid is stored, restart first sends it one termination
signal — `SIGTERM` (graceful) on Unix but `taskkill /F` (forced) on Windows —
then sleeps 500 ms, and only after that do the port reclaim and the spawn
occur (every remaining trace event is a reclaim or a spawn). -/
theorem restart_signal_then_grace (plat : Platform) (env : Env) (st : SupState) (pid : Nat)
    (h : st.processPid = some pid) :
    (restart_cliproxyapi plat env st).trace
        = Ev.termSignal (restart_kill_kind plat) pid :: Ev.sleepMs 500
            :: (launch_core env st).trace
    ∧ restart_kill_kind Platform.unix = TermKind.graceful
    ∧ restart_kill_kind Platform.windows = TermKind.forced
    ∧ ∀ ev ∈ (launch_core env st).trace,
        (∃ port, ev = Ev.reclaimPort port) ∨ ∃ p, ev = Ev.spawned p := by
  refine ⟨?_, rfl, rfl, ?_⟩
  · have he : restart_cliproxyapi plat env st
        = restart_launch env st
            [.termSignal (restart_kill_kind plat) pid, .sleepMs 500] := by
      unfold restart_cliproxyapi; rw [h]
    rw [he, restart_launch_trace]
    rfl
  · intro ev hev
    rcases launch_core_trace_shape env st with h0 | ⟨port, h1⟩ | ⟨port, p, h2⟩
    · rw [h0] at hev; simp at hev
    · rw [h1] at hev; simp at hev; exact Or.inl ⟨port, hev⟩
    · rw [h2] at hev
      simp at hev
      rcases hev with rfl | rfl
      · exact Or.inl ⟨port, rfl⟩
      · exact Or.inr ⟨p, rfl⟩

/-- Witness for C3's amended theorem on Unix with pid 42 stored. -/
theorem restart_signal_then_grace_witness :
    (restart_cliproxyapi Platform.unix env0 st0).trace
        = Ev.termSignal (restart_kill_kind Platform.unix) 42 :: Ev.sleepMs 500
            :: (launch_core env0 st0).trace
    ∧ restart_kill_kind Platform.unix = TermKind.graceful := by
  have h := restart_signal_then_grace Platform.unix env0 st0 42 (by decide)
  exact ⟨h.1, h.2.1⟩

/-! ### Callback relay lemmas -/

theorem lookupPort_cons_self (k : Nat) (e : RelayEntry) (rest : List (Nat × RelayEntry)) :
    lookupPort ((k, e) :: rest) k = some e := by
  unfold lookupPort
  rw [if_pos rfl]

theorem filter_removePort (m : List (Nat × RelayEntry)) (p : Nat) :
    (removePort m p).filter (fun kv => kv.1 == p) = [] := by
  induction m with
  | nil => rfl
  | cons kv rest ih =>
    obtain ⟨k, e⟩ := kv
    unfold removePort
    by_cases hk : k = p
    · rw [if_pos hk]
      exact ih
    · rw [if_neg hk]
      rw [List.filter_cons]
      simp only [hk, beq_iff_eq, if_false]
      exact ih

theorem start_cb_servers (env : RelayEnv) (st : RelayState) (port : Nat)
    (params : RelayParams) :
    (start_callback_server env st port params).state.servers
      = (port, new_relay_entry env port params) :: removePort st.servers port := by
  unfold start_callback_server
  split <;> rfl

theorem start_cb_result (env : RelayEnv) (st : RelayState) (port : Nat)
    (params : RelayParams) :
    (start_callback_server env st port params).result = Except.ok ⟨true, none⟩ := by
  unfold start_callback_server
  split <;> rfl

theorem start_cb_removed_found (env : RelayEnv) (st : RelayState) (port : Nat)
    (params : RelayParams) (e : RelayEntry)
    (h : lookupPort st.servers port = some e) :
    (start_callback_server env st port params).state.removed
      = st.removed ++ [{ e with stopFlag := true, nudged := true, joined := true }] := by
  unfold start_callback_server
  split
  · rename_i e' heq
    rw [h] at heq
    cases heq
    rfl
  · rename_i heq
    rw [h] at heq
    cases heq

/-! ### C5: replace semantics of the callback-relay registry -/

/-- C5: two successive relay starts on the same port leave exactly one
registered entry for that port — the second call's, with its parameters and
an unset stop flag — and the first call's entry was torn down during the
second call: taken out of the map with its cancellation flag set, nudged,
and its worker joined synchronously.  Both calls report success. -/
theorem callback_start_replace (env1 env2 : RelayEnv) (st : RelayState)
    (port : Nat) (p1 p2 : RelayParams) :
    ((start_callback_server env2
        (start_callback_server env1 st port p1).state port p2).state.servers.filter
          (fun kv => kv.1 == port))
      = [(port, new_relay_entry env2 port p2)]
    ∧ (start_callback_server env2
        (start_callback_server env1 st port p1).state port p2).state.removed
      = (start_callback_server env1 st port p1).state.removed
        ++ [{ new_relay_entry env1 port p1 with
              stopFlag := true, nudged := true, joined := true }]
    ∧ (start_callback_server env1 st port p1).result = Except.ok ⟨true, none⟩
    ∧ (start_callback_server env2
        (start_callback_server env1 st port p1).state port p2).result
      = Except.ok ⟨true, none⟩ := by
  refine ⟨?_, ?_, start_cb_result env1 st port p1, start_cb_result env2 _ port p2⟩
  · rw [start_cb_servers]
    rw [List.filter_cons]
    simp only [beq_self_eq_true, if_true]
    rw [filter_removePort]
  · apply start_cb_removed_found
    rw [start_cb_servers]
    exact lookupPort_cons_self port _ _

/-! ### C6: bind failure handling (corrected)

`TcpListener::bind` runs inside the spawned worker thread (main.rs 1504),
after `start_callback_server` has already inserted the registry entry and
returned `{"success": true}`; a bind failure is only logged to stderr
(main.rs 1507), so nothing is reported to the caller and the entry remains
registered, pointing at a dead worker. -/

/-- C6 counterexample: with the bind failing on port 7777, the relay start
still returns success and the port-7777 entry remains registered (with a
worker that never bound). -/
theorem bind_failure_entry_stays :
    (start_callback_server relayEnvFail relaySt0 7777 rp0).result = Except.ok ⟨true, none⟩
    ∧ lookupPort (start_callback_server relayEnvFail relaySt0 7777 rp0).state.servers 7777
        = some ⟨7777, rp0, false, false, false, false⟩
    ∧ lookupPort (start_callback_server relayEnvFail relaySt0 7777 rp0).state.servers 7777
        ≠ none := by
  decide

/-- C6 amended: when the bind on `127.0.0.1:port` fails, the failure is only
logged inside the worker: the relay start operation still returns
`{"success": true}` to its caller and the entry for that port remains
registered in the callback-server registry (with `bound = false`). -/
theorem bind_failure_unreported (env : RelayEnv) (st : RelayState) (port : Nat)
    (params : RelayParams) (hb : env.bindFails port = true) :
    (start_callback_server env st port params).result = Except.ok ⟨true, none⟩
    ∧ lookupPort (start_callback_server env st port params).state.servers port
        = some ⟨port, params, false, false, false, false⟩ := by
  refine ⟨start_cb_result env st port params, ?_⟩
  rw [start_cb_servers, lookupPort_cons_self]
  unfold new_relay_entry
  rw [hb]
  rfl

/-- Witness for C6's amended theorem. -/
theorem bind_failure_unreported_witness :
    (start_callback_server relayEnvFail relaySt0 9090 rp1).result = Except.ok ⟨true, none⟩
    ∧ lookupPort (start_callback_server relayEnvFail relaySt0 9090 rp1).state.servers 9090
        = some ⟨9090, rp1, false, false, false, false⟩ :=
  bind_failure_unreported relayEnvFail relaySt0 9090 rp1 (by decide)

/-! ### C7: stopping a non-existent relay -/

/-- C7: stopping a port with no registered entry returns the non-error
result `{"success": false, "error": "not running"}` and leaves the registry
state completely unchanged. -/
theorem stop_not_running (st : RelayState) (port : Nat)
    (h : lookupPort st.servers port = none) :
    stop_callback_server st port
      = ⟨Except.ok ⟨false, some "not running"⟩, st⟩ := by
  unfold stop_callback_server
  split
  · rfl
  · rename_i e heq
    rw [h] at heq
    cases heq

/-- Witness for C7 on the empty registry. -/
theorem stop_not_running_witness :
    stop_callback_server relaySt0 9999
      = ⟨Except.ok ⟨false, some "not running"⟩, relaySt0⟩ :=
  stop_not_running relaySt0 9999 (by decide)

/-! ### Keep-alive lemmas -/

theorem stop_ka_password (st : KAState) :
    (stop_keep_alive_internal st).password = st.password := by
  unfold stop_keep_alive_internal
  split <;> rfl

theorem start_ka_of_password (port : Nat) (st : KAState) (pw : String)
    (h : (stop_keep_alive_internal st).password = some pw) :
    start_keep_alive port st
      = (Except.ok ⟨true, none⟩,
         { stop_keep_alive_internal st with slot := some ⟨port, pw, false⟩ }) := by
  unfold start_keep_alive
  rw [h]

theorem filter_not_flag_nil (l : List KAEntry) (h : ∀ e ∈ l, e.stopFlag = true) :
    l.filter (fun e => !e.stopFlag) = [] := by
  induction l with
  | nil => rfl
  | cons a rest ih =>
    have ha := h a (by simp)
    rw [List.filter_cons]
    simp only [ha, Bool.not_true, if_false]
    exact ih fun e he => h e (by simp [he])

/-! ### C8: keep-alive singleton -/

/-- C8: starting the keep-alive monitor first stops any existing instance —
taking it out of the slot with its cancellation flag set — before installing
the new one; after two successive starts (from any state whose previously
stopped loops are all cancelled) exactly one non-cancelled loop remains, the
second call's, and the first call's loop is observably cancelled. -/
theorem keep_alive_singleton (st : KAState) (port1 port2 : Nat) (pw : String)
    (hpw : st.password = some pw)
    (hstopped : ∀ e ∈ st.stopped, e.stopFlag = true) :
    activeLoops (start_keep_alive port2 (start_keep_alive port1 st).2).2
      = [⟨port2, pw, false⟩]
    ∧ (start_keep_alive port2 (start_keep_alive port1 st).2).2.stopped.getLast?
      = some ⟨port1, pw, true⟩
    ∧ (∀ e, st.slot = some e →
        (start_keep_alive port1 st).2.stopped.getLast?
          = some { e with stopFlag := true }) := by
  have hp0 : (stop_keep_alive_internal st).password = some pw :=
    (stop_ka_password st).trans hpw
  have h1 := start_ka_of_password port1 st pw hp0
  have hst1 : (start_keep_alive port1 st).2
      = { stop_keep_alive_internal st with slot := some ⟨port1, pw, false⟩ } := by
    rw [h1]
  have hall : ∀ e ∈ (stop_keep_alive_internal st).stopped, e.stopFlag = true := by
    unfold stop_keep_alive_internal
    split
    · exact hstopped
    · rename_i e' heq
      intro x hx
      rcases List.mem_append.mp hx with hx | hx
      · exact hstopped x hx
      · simp only [List.mem_singleton] at hx
        rw [hx]
  have hp1 : (stop_keep_alive_internal (start_keep_alive port1 st).2).password = some pw := by
    rw [stop_ka_password, hst1]
    exact hp0
  have h2 := start_ka_of_password port2 (start_keep_alive port1 st).2 pw hp1
  have hstop1 : stop_keep_alive_internal (start_keep_alive port1 st).2
      = { stop_keep_alive_internal st with
          slot := none
          stopped := (stop_keep_alive_internal st).stopped ++ [⟨port1, pw, true⟩] } := by
    rw [hst1]
    unfold stop_keep_alive_internal
    rfl
  refine ⟨?_, ?_, ?_⟩
  · rw [h2, hstop1]
    unfold activeLoops
    simp only [Option.toList_some, List.singleton_append, List.filter_cons,
      List.filter_append, Bool.not_false, if_true]
    rw [filter_not_flag_nil _ hall]
    rfl
  · rw [h2, hstop1]
    exact List.getLast?_concat _
  · intro e he
    rw [hst1]
    unfold stop_keep_alive_internal
    rw [he]
    exact List.getLast?_concat _

/-- Witness for C8 at a concrete state with a loop already running. -/
theorem keep_alive_singleton_witness :
    activeLoops (start_keep_alive 2222 (start_keep_alive 1111 kaSt0).2).2
      = [⟨2222, "PW", false⟩]
    ∧ (start_keep_alive 2222 (start_keep_alive 1111 kaSt0).2).2.stopped.getLast?
      = some ⟨1111, "PW", true⟩ := by
  have h := keep_alive_singleton kaSt0 1111 2222 "PW" (by decide) (by simp [kaSt0])
  exact ⟨h.1, h.2.1⟩

end EasyCLI
